import Mathlib

/-!
# Verification of the `httpsrv` shutdown coordinator

Shallow embedding of the `httpsrv` Go package (files `server.go`, `conf.go`,
`param.go` — the revision using the escalation channel and `errors.Join`).

The core is `runServer`:

```go
func runServer(ctx context.Context, start, stop func() error, shutdown chan error) (rerr error) {
    var m sync.Mutex
    setReturnErr := func(err error) {
        m.Lock(); defer m.Unlock()
        if rerr == nil { rerr = err } else if err != nil { rerr = errors.Join(rerr, err) }
    }
    serveQuit := make(chan struct{})
    go func() {
        defer close(serveQuit)
        if err := start(); err != http.ErrServerClosed {
            setReturnErr(fmt.Errorf("http server exited with error: %w", err))
        }
    }()
    select {
    case <-serveQuit:
    case <-ctx.Done():
        setReturnErr(ctx.Err())
    case err := <-shutdown:
        setReturnErr(err)
        <-serveQuit
        return
    }
    if err := stop(); err != nil {
        setReturnErr(fmt.Errorf("stopping http server: %w", err))
    }
    <-serveQuit
    return
}
```

Concurrency is embedded by making the nondeterminism explicit: a `RunScenario`
fixes the outcome of each race (which `select` arm wins, and where the serve
goroutine's final actions land relative to the coordinator's), and the
execution is a deterministic event trace computed from the scenario.  Claims
quantify over all scenarios.
-/

namespace Httpsrv

/-- Go `error` values, structurally.  Distinguished constructors model the
sentinel errors compared by identity in the source (`http.ErrServerClosed`,
`http.ErrAbortHandler`, `context.Canceled`, `context.DeadlineExceeded`);
`errorString` models `errors.New`/`fmt.Errorf` leaf errors, `wrapped` models
`fmt.Errorf("msg: %w", inner)` with non-nil `inner`, `wrappedNil` the same
with a Go-`nil` operand, `joined` models `errors.Join` of two non-nil
errors. -/
inductive GoError : Type
  | errServerClosed
  | errAbortHandler
  | canceled
  | deadlineExceeded
  | errorString (msg : String)
  | wrapped (msg : String) (inner : GoError)
  | wrappedNil (msg : String)
  | joined (a b : GoError)
deriving DecidableEq, Repr

/-- Model of `fmt.Errorf("msg: %w", err)` for a possibly-nil `err`. -/
def GoError.wrap (msg : String) : Option GoError → GoError
  | none => .wrappedNil msg
  | some e => .wrapped msg e

/-- Go `errors.Is(e, target)`: identity at each node, unwrapping through
`%w`-wrapping and through both operands of `errors.Join`. -/
def GoError.is : GoError → GoError → Bool
  | .wrapped m i, target => decide (GoError.wrapped m i = target) || i.is target
  | .joined a b, target => decide (GoError.joined a b = target) || a.is target || b.is target
  | e, target => decide (e = target)

/-- The leftmost (first-recorded) leaf of an `errors.Join` tree: the
"primary" cause of a composite error. -/
def GoError.primary : GoError → GoError
  | .joined a _ => a.primary
  | e => e

/-- Function `setReturnErr` of `runServer`, acting on the `rerr` result slot
(`none` = Go `nil`): the first non-nil error is kept as-is, every later
non-nil error is `errors.Join`-ed onto it. -/
def setReturnErr (rerr err : Option GoError) : Option GoError :=
  match rerr, err with
  | none, e => e
  | some r, none => some r
  | some r, some e => some (.joined r e)

/-- A cancelled Go context: `ctx.Err()` is `context.Canceled` or
`context.DeadlineExceeded` (chosen by `isDeadline`), while `context.Cause`
may carry a distinct caller-supplied cause (`cause = ctxErr` when none was
set, as Go guarantees). -/
structure CancelState : Type where
  isDeadline : Bool
  cause : GoError
deriving DecidableEq, Repr

/-- The value `ctx.Err()` returns once the context is cancelled. -/
def CancelState.ctxErr (cs : CancelState) : GoError :=
  if cs.isDeadline then .deadlineExceeded else .canceled

/-- Which arm of `runServer`'s `select` wins the initial race:
the `serveQuit` channel is already closed, `ctx.Done()` fired, or the
`shutdown` escalation channel delivered the (possibly nil) error `e`. -/
inductive Trigger : Type
  | serveQuitClosed
  | ctxDone
  | shutdownMsg (e : Option GoError)
deriving DecidableEq, Repr

/-- Where the serve goroutine's final actions (its `setReturnErr` call, if
any, followed by `close(serveQuit)`) land relative to the coordinator:
before the `select` resolves, after the trigger record but before `stop()`
is called, while `stop()` runs, or after `stop()`'s error is recorded.
(Positions after the trigger coincide on paths that never call `stop`.) -/
inductive ServeExitPos : Type
  | beforeTrigger
  | beforeStop
  | duringStop
  | afterStop
deriving DecidableEq, Repr

/-- One resolved execution of `runServer`: the context's cancellation state
(`none` = never cancelled), the value `start()` returns (`none` = Go `nil`),
the value `stop()` returns, which `select` arm wins, and where the serve
goroutine's exit lands. -/
structure RunScenario : Type where
  cancel : Option CancelState
  startRes : Option GoError
  stopRes : Option GoError
  trigger : Trigger
  servePos : ServeExitPos
deriving DecidableEq, Repr

/-- Observable events of one `runServer` execution. `record e` is a call of
`setReturnErr e`; `serveExit` is `close(serveQuit)` (the serve goroutine is
finished); `stopCall` is the invocation of `stop()`; `serveStart` is the
launch of the `start()` goroutine (used by the `Run` model); `ret` is the
return of the call. -/
inductive Event : Type
  | serveStart
  | record (e : Option GoError)
  | serveExit
  | stopCall
  | ret
deriving DecidableEq, Repr

/-- Events emitted by a guarded `setReturnErr` call site: the source only
calls `setReturnErr` there when the computed error is non-nil. -/
def recordEvents (o : Option GoError) : List Event :=
  match o with
  | none => []
  | some e => [.record (some e)]

/-- The error the serve goroutine records: nothing when `start()` returned
the `http.ErrServerClosed` sentinel (compared by identity), otherwise
`fmt.Errorf("http server exited with error: %w", err)` — also when
`start()` returned nil. -/
def serveRecord (startRes : Option GoError) : Option GoError :=
  if startRes = some .errServerClosed then none
  else some (.wrap "http server exited with error" startRes)

/-- The error recorded after `stop()` returns: nothing when it returned nil,
otherwise `fmt.Errorf("stopping http server: %w", err)`. -/
def stopRecord (stopRes : Option GoError) : Option GoError :=
  match stopRes with
  | none => none
  | some e => some (.wrapped "stopping http server" e)

/-- The serve goroutine's trailing actions: its conditional `setReturnErr`
call, then `close(serveQuit)` (the `defer` runs last). -/
def serveEvents (s : RunScenario) : List Event :=
  recordEvents (serveRecord s.startRes) ++ [.serveExit]

/-- The coordinator's stop step: invoke `stop()`, then record its error
if non-nil. -/
def stopEvents (s : RunScenario) : List Event :=
  .stopCall :: recordEvents (stopRecord s.stopRes)

/-- The event trace of `runServer` under scenario `s`, following the source:
* `serveQuit` already closed: the goroutine's actions happened before the
  `select`; the coordinator then calls `stop()`, records its error, passes
  the (already closed) final `<-serveQuit`, and returns.
* `ctx.Done()` fired: `setReturnErr(ctx.Err())`, then `stop()` and its
  record, then the final `<-serveQuit`; the goroutine's actions land at
  `s.servePos`.
* escalation delivery: `setReturnErr(err)` with the delivered value
  (unconditionally, even when nil), then only `<-serveQuit` and return —
  `stop()` is never reached on this path. -/
def runTrace (s : RunScenario) : List Event :=
  match s.trigger with
  | .serveQuitClosed =>
      serveEvents s ++ stopEvents s ++ [.ret]
  | .ctxDone =>
      let m : List Event := [.record (some ((s.cancel.getD ⟨false, .canceled⟩).ctxErr))]
      (match s.servePos with
       | .beforeTrigger => serveEvents s ++ m ++ stopEvents s
       | .beforeStop => m ++ serveEvents s ++ stopEvents s
       | .duringStop => m ++ [.stopCall] ++ serveEvents s ++ recordEvents (stopRecord s.stopRes)
       | .afterStop => m ++ stopEvents s ++ serveEvents s) ++ [.ret]
  | .shutdownMsg e =>
      (match s.servePos with
       | .beforeTrigger => serveEvents s ++ [.record e]
       | _ => .record e :: serveEvents s) ++ [.ret]

/-- The successive arguments of the `setReturnErr` calls in a trace. -/
def recordsOf (l : List Event) : List (Option GoError) :=
  l.filterMap fun ev =>
    match ev with
    | .record e => some e
    | _ => none

/-- The value `runServer` returns: the `rerr` slot after all `setReturnErr`
calls of the trace have been applied in order (`none` = Go `nil`). -/
def runServer (s : RunScenario) : Option GoError :=
  (recordsOf (runTrace s)).foldl setReturnErr none

/-- Whether `stop()` was invoked during the run. -/
def stopInvoked (s : RunScenario) : Bool :=
  decide (Event.stopCall ∈ runTrace s)

/-- The non-nil errors passed to `setReturnErr` in a trace, in order. -/
def errsOf (l : List Event) : List GoError :=
  (recordsOf l).filterMap id

/-- The non-nil errors recorded during the run, in record order. -/
def recordedErrs (s : RunScenario) : List GoError :=
  errsOf (runTrace s)

/-- The first non-nil error recorded during the run, if any. -/
def firstRecorded (s : RunScenario) : Option GoError :=
  (recordedErrs s).head?

/-- The composite `errors.Join` tree that a sequence of recorded non-nil
errors accumulates to: the first error is kept, later ones are joined on
the right, left-nested. -/
def joinAll : List GoError → Option GoError
  | [] => none
  | e :: es => some (es.foldl .joined e)

/-- Check `errors.Is` against a possibly-nil result. -/
def resultIs (o : Option GoError) (target : GoError) : Bool :=
  match o with
  | some r => r.is target
  | none => false

/-- The primary cause of a possibly-nil result. -/
def resultPrimary (o : Option GoError) : Option GoError :=
  o.map GoError.primary

/-! ## Basic lemmas about `errors.Is`, `errors.Join` folds and `setReturnErr` -/

theorem GoError.is_refl (e : GoError) : e.is e = true := by
  cases e <;> simp [GoError.is]

theorem GoError.is_joined_of_left {a t : GoError} (b : GoError) (h : a.is t = true) :
    (GoError.joined a b).is t = true := by
  simp [GoError.is, h]

theorem GoError.is_joined_of_right {b t : GoError} (a : GoError) (h : b.is t = true) :
    (GoError.joined a b).is t = true := by
  simp [GoError.is, h]

theorem GoError.is_foldl_joined {e t : GoError} (es : List GoError) (h : e.is t = true) :
    (es.foldl .joined e).is t = true := by
  induction es generalizing e with
  | nil => exact h
  | cons a es ih => exact ih (GoError.is_joined_of_left a h)

theorem GoError.is_foldl_joined_of_mem {t : GoError} (es : List GoError) (e : GoError)
    (h : t ∈ es) : (es.foldl .joined e).is t = true := by
  induction es generalizing e with
  | nil => cases h
  | cons a es ih =>
    rcases List.mem_cons.mp h with rfl | h'
    · exact GoError.is_foldl_joined es (GoError.is_joined_of_right e (GoError.is_refl t))
    · exact ih _ h'

theorem GoError.primary_foldl_joined (es : List GoError) (e : GoError) :
    (es.foldl .joined e).primary = e.primary := by
  induction es generalizing e with
  | nil => rfl
  | cons a es ih => exact ih (GoError.joined e a)

/-- Folding `setReturnErr` from a non-nil accumulator joins exactly the
non-nil later records onto it. -/
theorem foldl_setReturnErr_some (l : List (Option GoError)) (r : GoError) :
    l.foldl setReturnErr (some r) = some ((l.filterMap id).foldl .joined r) := by
  induction l generalizing r with
  | nil => rfl
  | cons x t ih =>
    cases x with
    | none => simpa [setReturnErr] using ih r
    | some e => simpa [setReturnErr] using ih (GoError.joined r e)

/-- The `rerr` slot after all `setReturnErr` calls is exactly the left-nested
`errors.Join` of the non-nil recorded errors, in record order. -/
theorem foldl_setReturnErr_none (l : List (Option GoError)) :
    l.foldl setReturnErr none = joinAll (l.filterMap id) := by
  induction l with
  | nil => rfl
  | cons x t ih =>
    cases x with
    | none => simpa [setReturnErr] using ih
    | some e => simp [setReturnErr, joinAll, foldl_setReturnErr_some]

theorem runServer_eq_joinAll (s : RunScenario) :
    runServer s = joinAll (recordedErrs s) :=
  foldl_setReturnErr_none _

/-! ## Extracting the recorded errors from a trace -/

@[simp] theorem errsOf_nil : errsOf [] = [] := rfl

@[simp] theorem errsOf_append (l₁ l₂ : List Event) :
    errsOf (l₁ ++ l₂) = errsOf l₁ ++ errsOf l₂ := by
  simp [errsOf, recordsOf, List.filterMap_append]

@[simp] theorem errsOf_cons_record (e : Option GoError) (l : List Event) :
    errsOf (.record e :: l) = e.toList ++ errsOf l := by
  cases e <;> simp [errsOf, recordsOf]

@[simp] theorem errsOf_cons_serveStart (l : List Event) :
    errsOf (.serveStart :: l) = errsOf l := rfl

@[simp] theorem errsOf_cons_serveExit (l : List Event) :
    errsOf (.serveExit :: l) = errsOf l := rfl

@[simp] theorem errsOf_cons_stopCall (l : List Event) :
    errsOf (.stopCall :: l) = errsOf l := rfl

@[simp] theorem errsOf_cons_ret (l : List Event) :
    errsOf (.ret :: l) = errsOf l := rfl

@[simp] theorem errsOf_recordEvents (o : Option GoError) :
    errsOf (recordEvents o) = o.toList := by
  cases o <;> rfl

@[simp] theorem errsOf_serveEvents (s : RunScenario) :
    errsOf (serveEvents s) = (serveRecord s.startRes).toList := by
  simp [serveEvents]

@[simp] theorem errsOf_stopEvents (s : RunScenario) :
    errsOf (stopEvents s) = (stopRecord s.stopRes).toList := by
  simp [stopEvents]

/-! ## Membership of events in trace pieces -/

@[simp] theorem ret_not_mem_recordEvents (o : Option GoError) :
    Event.ret ∉ recordEvents o := by
  cases o <;> simp [recordEvents]

@[simp] theorem stopCall_not_mem_recordEvents (o : Option GoError) :
    Event.stopCall ∉ recordEvents o := by
  cases o <;> simp [recordEvents]

@[simp] theorem count_stopCall_recordEvents (o : Option GoError) :
    (recordEvents o).count Event.stopCall = 0 := by
  cases o <;> simp [recordEvents]

@[simp] theorem count_stopCall_serveEvents (s : RunScenario) :
    (serveEvents s).count Event.stopCall = 0 := by
  cases h : serveRecord s.startRes <;> simp [serveEvents, recordEvents, h]

@[simp] theorem count_stopCall_stopEvents (s : RunScenario) :
    (stopEvents s).count Event.stopCall = 1 := by
  cases h : stopRecord s.stopRes <;> simp [stopEvents, recordEvents, h]

@[simp] theorem serveExit_mem_serveEvents (s : RunScenario) :
    Event.serveExit ∈ serveEvents s := by
  cases h : serveRecord s.startRes <;> simp [serveEvents, recordEvents, h]

@[simp] theorem stopCall_not_mem_serveEvents (s : RunScenario) :
    Event.stopCall ∉ serveEvents s := by
  cases h : serveRecord s.startRes <;> simp [serveEvents, recordEvents, h]

@[simp] theorem ret_not_mem_serveEvents (s : RunScenario) :
    Event.ret ∉ serveEvents s := by
  cases h : serveRecord s.startRes <;> simp [serveEvents, recordEvents, h]

@[simp] theorem stopCall_mem_stopEvents (s : RunScenario) :
    Event.stopCall ∈ stopEvents s := by
  simp [stopEvents]

@[simp] theorem ret_not_mem_stopEvents (s : RunScenario) :
    Event.ret ∉ stopEvents s := by
  cases h : stopRecord s.stopRes <;> simp [stopEvents, recordEvents, h]

/-- The `stop()` function is invoked exactly on the two `select` outcomes that fall
through to the stop step; the escalation arm returns without it. -/
theorem stopInvoked_iff (s : RunScenario) :
    stopInvoked s = true ↔ s.trigger = .serveQuitClosed ∨ s.trigger = .ctxDone := by
  rcases s with ⟨cancel, startRes, stopRes, trigger, servePos⟩
  cases trigger <;> cases servePos <;>
    simp [stopInvoked, runTrace]

/-! ## The recorded errors reaching the result -/

@[simp] theorem resultPrimary_joinAll_cons (e : GoError) (es : List GoError) :
    resultPrimary (joinAll (e :: es)) = some e.primary := by
  simp [joinAll, resultPrimary, GoError.primary_foldl_joined]

theorem resultIs_of_mem (s : RunScenario) (e : GoError) (h : e ∈ recordedErrs s) :
    resultIs (runServer s) e = true := by
  rw [runServer_eq_joinAll]
  cases hre : recordedErrs s with
  | nil => rw [hre] at h; cases h
  | cons e₀ rest =>
    rw [hre] at h
    rcases List.mem_cons.mp h with rfl | h'
    · simpa [joinAll, resultIs] using GoError.is_foldl_joined rest (GoError.is_refl e)
    · simpa [joinAll, resultIs] using GoError.is_foldl_joined_of_mem rest e₀ h'

theorem isSome_of_mem (s : RunScenario) (e : GoError) (h : e ∈ recordedErrs s) :
    (runServer s).isSome = true := by
  rw [runServer_eq_joinAll]
  cases hre : recordedErrs s with
  | nil => rw [hre] at h; cases h
  | cons e₀ rest => simp [joinAll]

/-- The serve goroutine's record (when `start()` did not return the
sentinel) reaches the result slot on every path. -/
theorem mem_recordedErrs_serve (s : RunScenario) (w : GoError)
    (h : serveRecord s.startRes = some w) : w ∈ recordedErrs s := by
  rcases s with ⟨cancel, startRes, stopRes, trigger, servePos⟩
  simp only [serveRecord] at h
  cases trigger <;> cases servePos <;>
    simp [recordedErrs, runTrace, serveRecord, h]

/-- When the cancellation arm wins, `ctx.Err()` is recorded. -/
theorem mem_recordedErrs_ctxErr (s : RunScenario) (h : s.trigger = .ctxDone) :
    (s.cancel.getD ⟨false, .canceled⟩).ctxErr ∈ recordedErrs s := by
  rcases s with ⟨cancel, startRes, stopRes, trigger, servePos⟩
  subst h
  cases servePos <;> simp [recordedErrs, runTrace]

/-- When the escalation arm wins with a non-nil delivery, that error is
recorded. -/
theorem mem_recordedErrs_escalation (s : RunScenario) (e : GoError)
    (h : s.trigger = .shutdownMsg (some e)) : e ∈ recordedErrs s := by
  rcases s with ⟨cancel, startRes, stopRes, trigger, servePos⟩
  subst h
  cases servePos <;> simp [recordedErrs, runTrace]

/-- When `stop()` is invoked and returns a non-nil error, its wrapped form is
recorded. -/
theorem mem_recordedErrs_stop (s : RunScenario) (w : GoError)
    (hinv : stopInvoked s = true) (h : stopRecord s.stopRes = some w) :
    w ∈ recordedErrs s := by
  rcases (stopInvoked_iff s).mp hinv with ht | ht <;>
  · rcases s with ⟨cancel, startRes, stopRes, trigger, servePos⟩
    subst ht
    cases servePos <;> simp [recordedErrs, runTrace, h]

@[simp] theorem CancelState.primary_ctxErr (cs : CancelState) :
    cs.ctxErr.primary = cs.ctxErr := by
  rcases cs with ⟨d, c⟩
  cases d <;> rfl

/-- When the cancellation arm wins and the serve goroutine had not yet
recorded anything, `ctx.Err()` heads the recorded errors. -/
theorem recordedErrs_ctxDone_head (s : RunScenario) (cs : CancelState)
    (hc : s.cancel = some cs) (ht : s.trigger = .ctxDone)
    (hp : s.servePos ≠ .beforeTrigger) :
    ∃ rest, recordedErrs s = cs.ctxErr :: rest := by
  rcases s with ⟨cancel, startRes, stopRes, trigger, servePos⟩
  cases hc
  cases ht
  cases servePos with
  | beforeTrigger => exact absurd rfl hp
  | beforeStop =>
    exact ⟨(serveRecord startRes).toList ++ (stopRecord stopRes).toList,
      by simp [recordedErrs, runTrace]⟩
  | duringStop =>
    exact ⟨(serveRecord startRes).toList ++ (stopRecord stopRes).toList,
      by simp [recordedErrs, runTrace]⟩
  | afterStop =>
    exact ⟨(stopRecord stopRes).toList ++ (serveRecord startRes).toList,
      by simp [recordedErrs, runTrace]⟩

/-- When the escalation arm wins with delivery `E` and the serve goroutine
had not yet recorded anything, `E` heads the recorded errors. -/
theorem recordedErrs_escalation_head (s : RunScenario) (E : GoError)
    (ht : s.trigger = .shutdownMsg (some E)) (hp : s.servePos ≠ .beforeTrigger) :
    ∃ rest, recordedErrs s = E :: rest := by
  rcases s with ⟨cancel, startRes, stopRes, trigger, servePos⟩
  cases ht
  cases servePos with
  | beforeTrigger => exact absurd rfl hp
  | beforeStop => exact ⟨(serveRecord startRes).toList, by simp [recordedErrs, runTrace]⟩
  | duringStop => exact ⟨(serveRecord startRes).toList, by simp [recordedErrs, runTrace]⟩
  | afterStop => exact ⟨(serveRecord startRes).toList, by simp [recordedErrs, runTrace]⟩

/-! ## Configuration, `Run`, and the stop strategy (`conf.go`, `Run`) -/

/-- Error `errUnassignedAddr` of `conf.go`. -/
def errUnassignedAddr : GoError :=
  .errorString "address to listen to is not assigned - to fix use either Listener parameter or set the Addr field of the http.Server parameter of Run"

/-- Error `errUnassignedHandler` of `conf.go`. -/
def errUnassignedHandler : GoError :=
  .errorString "misconfigured http server, no handlers attached - to fix use either Endpoints parameter or set the Handler field of the http.Server parameter of Run"

/-- The fields of the `http.Server` argument that `Run`'s configuration
validation reads: its `Addr` string and whether a `Handler` is assigned
(the `Endpoints` parameter assigns `cfg.srv.Handler`, so after the
parameters are applied a handler from either origin shows up here). -/
structure HttpServer : Type where
  addr : String
  hasHandler : Bool
deriving DecidableEq, Repr

/-- Structure `serverConf` after all `ServerParam`s were applied: the server, whether a
listener was supplied via the `Listener` parameter (`cfg.l != nil`), the
graceful-shutdown timeout (a `time.Duration`, in nanoseconds), and the
`ShutdownOnPanic` flag. -/
structure serverConf : Type where
  srv : HttpServer
  hasListener : Bool
  shutdownTO : Int
  dieOnPanic : Bool
deriving DecidableEq, Repr

/-- Method `serverConf.validate`: handler first, then address/listener.

```go
func (cfg *serverConf) validate() error {
    if cfg.srv.Handler == nil { return errUnassignedHandler }
    if cfg.srv.Addr == "" && cfg.l == nil { return errUnassignedAddr }
    return nil
}
``` -/
def serverConf.validate (cfg : serverConf) : Option GoError :=
  if cfg.srv.hasHandler = false then some errUnassignedHandler
  else if cfg.srv.addr = "" ∧ cfg.hasListener = false then some errUnassignedAddr
  else none

/-- The event trace of `Run`: when `cfg.validate()` fails, `Run` returns at
once — the serve goroutine is never launched and `stop` is never invoked;
otherwise it launches the serve task and behaves as `runServer`. -/
def RunTrace (cfg : serverConf) (s : RunScenario) : List Event :=
  match cfg.validate with
  | some _ => [.ret]
  | none => .serveStart :: runTrace s

/-- The value `Run` returns: the validation error when the configuration is
invalid, else the `runServer` result. -/
def Run (cfg : serverConf) (s : RunScenario) : Option GoError :=
  match cfg.validate with
  | some e => some e
  | none => runServer s

/-- Parent context of a context created during shutdown: `context.Background()`
or the (already cancelled) scope `Run` was given. -/
inductive CtxParent : Type
  | background
  | callerScope
deriving DecidableEq, Repr

/-- Observable behaviour of one invocation of the function `stopFunc`
returns: either `srv.Close()`, or `srv.Shutdown(ctx)` with `ctx` derived from
the stated parent and carrying the stated absolute deadline. -/
inductive StopCall : Type
  | closeCall
  | shutdownCall (parent : CtxParent) (deadline : Int)
deriving DecidableEq, Repr

/-- Method `serverConf.stopFunc`, as a function of the (absolute, nanosecond) time
`now` at which the returned closure is invoked:

```go
func (cfg *serverConf) stopFunc() func() error {
    if cfg.shutdownTO <= 0 {
        return func() error { return cfg.srv.Close() }
    }
    return func() error {
        ctx, cancel := context.WithTimeout(context.Background(), cfg.shutdownTO)
        defer cancel()
        return cfg.srv.Shutdown(ctx)
    }
}
```

`context.WithTimeout(parent, d)` cancels at `now + d`, so the deadline is
fresh per invocation and derived from `context.Background()`. -/
def serverConf.stopFunc (cfg : serverConf) : Int → StopCall :=
  if cfg.shutdownTO ≤ 0 then fun _ => .closeCall
  else fun now => .shutdownCall .background (now + cfg.shutdownTO)

/-! ## The `ShutdownOnPanic` wrapper (`installDieOnPanicHandler`) -/

/-- The `Error()` string of a Go error, as `fmt`'s `%v` verb renders it. -/
def GoError.errString : GoError → String
  | .errServerClosed => "http: Server closed"
  | .errAbortHandler => "net/http: abort Handler"
  | .canceled => "context canceled"
  | .deadlineExceeded => "context deadline exceeded"
  | .errorString m => m
  | .wrapped m i => m ++ ": " ++ i.errString
  | .wrappedNil m => m ++ ": %!w(<nil>)"
  | .joined a b => a.errString ++ "\n" ++ b.errString

/-- A value passed to `panic`: either a Go error or any other value,
abstracted by its `%v` rendering. -/
inductive PanicValue : Type
  | errValue (e : GoError)
  | otherValue (v : String)
deriving DecidableEq, Repr

/-- Rendering `fmt.Sprintf("%v", r)` of a recovered panic value. -/
def panicString : PanicValue → String
  | .errValue e => e.errString
  | .otherValue v => v

/-- How one wrapped request ends: the inner handler returns, or it panics
with some value. -/
inductive HandlerOutcome : Type
  | normal
  | panicked (v : PanicValue)
deriving DecidableEq, Repr

/-- Side effects the wrapper performs after the inner handler, in order:
a send into the escalation (`shutdown`) channel, and/or `srv.Close()`. -/
inductive PanicAction : Type
  | sendShutdown (e : GoError)
  | closeServer
deriving DecidableEq, Repr

/-- The per-request behaviour of the handler `installDieOnPanicHandler`
installs:

```go
defer func() {
    if r := recover(); r != nil {
        if err, ok := r.(error); ok && err == http.ErrAbortHandler {
            return
        }
        done <- fmt.Errorf("unhandled panic: %v", r)
        srv.Close()
    }
}()
next.ServeHTTP(w, r)
```

The `==` comparison is identity with the `http.ErrAbortHandler` sentinel, so
only an unwrapped sentinel is swallowed silently; any other panic value is
reported into the channel and then the server is closed. -/
def dieOnPanicHandler : HandlerOutcome → List PanicAction
  | .normal => []
  | .panicked v =>
      if v = .errValue .errAbortHandler then []
      else [.sendShutdown (.errorString ("unhandled panic: " ++ panicString v)), .closeServer]

/-! ## The claims -/

/-- C1, counterexample: in the run where `start()` returns the
`http.ErrServerClosed` sentinel on its own (`serveQuit` wins the select),
the context is never cancelled, no escalation value is delivered and
`stop()` returns nil, `runServer` returns Go `nil` — so `runServer` does
not return a non-nil error for *every* context, start, stop and escalation
channel. -/
theorem runServer_nil_on_quiet_sentinel_exit :
    runServer ⟨none, some .errServerClosed, none, .serveQuitClosed, .beforeTrigger⟩
      = none := by
  decide

/-- C1 (amended): `runServer` returns a non-nil error whenever any error
source actually fires — the start function returns anything other than the
`http.ErrServerClosed` sentinel, or the cancellation arm wins the select, or
the escalation channel delivers a non-nil error, or an invoked stop function
returns a non-nil error.  (In the anomalous run with none of these —
sentinel exit, nil stop, nil escalation — the result is nil, see the
counterexample.) -/
theorem runServer_nonNil_of_errorSource (s : RunScenario)
    (h : s.startRes ≠ some .errServerClosed ∨ s.trigger = .ctxDone ∨
         (∃ e, s.trigger = .shutdownMsg (some e)) ∨
         (stopInvoked s = true ∧ ∃ e, s.stopRes = some e)) :
    (runServer s).isSome = true := by
  rcases h with h | h | ⟨e, h⟩ | ⟨hinv, e, h⟩
  · refine isSome_of_mem s (GoError.wrap "http server exited with error" s.startRes)
      (mem_recordedErrs_serve s _ ?_)
    simp [serveRecord, h]
  · exact isSome_of_mem s _ (mem_recordedErrs_ctxErr s h)
  · exact isSome_of_mem s _ (mem_recordedErrs_escalation s e h)
  · refine isSome_of_mem s (GoError.wrapped "stopping http server" e)
      (mem_recordedErrs_stop s _ hinv ?_)
    rw [h]
    rfl

/-- C1, witness: the amended theorem applied to the run of the
`failure to start the server` test (start fails at once, stop returns
nil). -/
theorem runServer_nonNil_of_errorSource_witness :
    (RunScenario.mk none (some (.errorString "failed to start")) none
        .serveQuitClosed .beforeTrigger).startRes ≠ some .errServerClosed ∧
    (runServer ⟨none, some (.errorString "failed to start"), none,
        .serveQuitClosed, .beforeTrigger⟩).isSome = true :=
  ⟨by decide, runServer_nonNil_of_errorSource _ (Or.inl (by decide))⟩

/-- C2, counterexample: in a run where the serve task exits first
(`start()` returns an error before any trigger) and `stop()` returns an
error, the stop function *is* invoked on the done-first path and the
returned composite *does* attribute to Stop — against the claim that the
done-first path never invokes stop and never attributes to it. -/
theorem doneFirst_invokes_stop_counterexample :
    stopInvoked ⟨none, some (.errorString "failed to start"),
        some (.errorString "stop error"), .serveQuitClosed, .beforeTrigger⟩ = true ∧
    resultIs
      (runServer ⟨none, some (.errorString "failed to start"),
          some (.errorString "stop error"), .serveQuitClosed, .beforeTrigger⟩)
      (.wrapped "stopping http server" (.errorString "stop error")) = true := by
  decide

/-- C2 (amended): on the done-first path the stop function IS still invoked
(as an idempotent safety step); the escalation-delivery path is the only
path on which stop is never invoked.  On the done-first path the result is
built from the serve record followed by the stop record, so the serve
task's error (when any) is the primary and a nil-returning stop leaves the
result attributing only to the serve task's own error. -/
theorem doneFirst_path_stop (s : RunScenario) :
    (s.trigger = .serveQuitClosed → stopInvoked s = true) ∧
    (stopInvoked s = false ↔ ∃ e, s.trigger = .shutdownMsg e) ∧
    (s.trigger = .serveQuitClosed →
      runServer s = setReturnErr (serveRecord s.startRes) (stopRecord s.stopRes)) ∧
    (s.trigger = .serveQuitClosed → s.stopRes = none →
      runServer s = serveRecord s.startRes) := by
  refine ⟨fun ht => (stopInvoked_iff s).mpr (Or.inl ht), ?_, ?_, ?_⟩
  · have h2 : stopInvoked s = false ↔
        ¬(s.trigger = .serveQuitClosed ∨ s.trigger = .ctxDone) := by
      rw [← stopInvoked_iff s]
      cases stopInvoked s <;> simp
    rw [h2]
    cases ht : s.trigger <;> simp
  · intro ht
    rcases s with ⟨cancel, startRes, stopRes, trigger, servePos⟩
    cases ht
    rw [runServer_eq_joinAll]
    have hre : recordedErrs ⟨cancel, startRes, stopRes, .serveQuitClosed, servePos⟩
        = (serveRecord startRes).toList ++ (stopRecord stopRes).toList := by
      simp [recordedErrs, runTrace]
    rw [hre]
    cases serveRecord startRes <;> cases stopRecord stopRes <;>
      simp [joinAll, setReturnErr]
  · intro ht hn
    rcases s with ⟨cancel, startRes, stopRes, trigger, servePos⟩
    cases ht
    cases hn
    rw [runServer_eq_joinAll]
    have hre : recordedErrs ⟨cancel, startRes, none, .serveQuitClosed, servePos⟩
        = (serveRecord startRes).toList := by
      simp [recordedErrs, runTrace, stopRecord]
    rw [hre]
    cases serveRecord startRes <;> simp [joinAll]

/-- C2, witness: the amended theorem at a done-first run with a failing
start and a nil-returning stop. -/
theorem doneFirst_path_stop_witness :
    stopInvoked ⟨none, some (.errorString "exited badly"), none,
        .serveQuitClosed, .beforeTrigger⟩ = true ∧
    runServer ⟨none, some (.errorString "exited badly"), none,
        .serveQuitClosed, .beforeTrigger⟩
      = serveRecord (some (.errorString "exited badly")) :=
  ⟨(doneFirst_path_stop _).1 rfl, (doneFirst_path_stop _).2.2.2 rfl rfl⟩

/-- C3: when the escalation channel delivers an error `E` before the serve
goroutine has recorded anything, the stop function is never invoked, `E` is
the first recorded (primary) error, `errors.Is` of the result against `E`
succeeds, and the trace still reaches `serveExit` before returning. -/
theorem escalationFirst_behaviour (s : RunScenario) (E : GoError)
    (ht : s.trigger = .shutdownMsg (some E)) (hp : s.servePos ≠ .beforeTrigger) :
    stopInvoked s = false ∧
    firstRecorded s = some E ∧
    resultPrimary (runServer s) = some E.primary ∧
    resultIs (runServer s) E = true ∧
    ∃ l, runTrace s = l ++ [Event.ret] ∧ Event.serveExit ∈ l := by
  obtain ⟨rest, hre⟩ := recordedErrs_escalation_head s E ht hp
  refine ⟨?_, ?_, ?_, resultIs_of_mem s E (mem_recordedErrs_escalation s E ht), ?_⟩
  · cases hb : stopInvoked s
    · rfl
    · rcases (stopInvoked_iff s).mp hb with h | h <;> rw [ht] at h <;> cases h
  · rw [firstRecorded, hre]
    rfl
  · rw [runServer_eq_joinAll, hre]
    simp
  · rcases s with ⟨cancel, startRes, stopRes, trigger, servePos⟩
    cases ht
    cases servePos <;> exact ⟨_, rfl, by simp⟩

/-- C3, witness: the theorem at a run where the escalation channel delivers
an error while the serve task is still running and later exits with the
sentinel. -/
theorem escalationFirst_behaviour_witness :
    stopInvoked ⟨none, some .errServerClosed, none,
        .shutdownMsg (some (.errorString "shutdown signal in chan")), .beforeStop⟩ = false ∧
    firstRecorded ⟨none, some .errServerClosed, none,
        .shutdownMsg (some (.errorString "shutdown signal in chan")), .beforeStop⟩
      = some (.errorString "shutdown signal in chan") ∧
    resultPrimary
      (runServer ⟨none, some .errServerClosed, none,
          .shutdownMsg (some (.errorString "shutdown signal in chan")), .beforeStop⟩)
      = some (GoError.errorString "shutdown signal in chan") ∧
    resultIs
      (runServer ⟨none, some .errServerClosed, none,
          .shutdownMsg (some (.errorString "shutdown signal in chan")), .beforeStop⟩)
      (.errorString "shutdown signal in chan") = true ∧
    ∃ l, runTrace ⟨none, some .errServerClosed, none,
        .shutdownMsg (some (.errorString "shutdown signal in chan")), .beforeStop⟩
        = l ++ [Event.ret] ∧ Event.serveExit ∈ l :=
  escalationFirst_behaviour _ _ rfl (by decide)

/-- C4: in every scenario — whichever trigger sources fire and in whatever
order the races resolve — the trace of `runServer` contains at most one
invocation of the stop function. -/
theorem stop_invoked_at_most_once (s : RunScenario) :
    (runTrace s).count Event.stopCall ≤ 1 := by
  rcases s with ⟨cancel, startRes, stopRes, trigger, servePos⟩
  cases trigger <;> cases servePos <;>
    simp [runTrace]

/-- C5: every path out of `runServer` passes `serveExit` — the close of the
serve goroutine's completion channel — strictly before the single trailing
return event: no goroutine launched by `runServer` outlives the call. -/
theorem returns_only_after_serve_exit (s : RunScenario) :
    ∃ l, runTrace s = l ++ [Event.ret] ∧ Event.serveExit ∈ l ∧ Event.ret ∉ l := by
  rcases s with ⟨cancel, startRes, stopRes, trigger, servePos⟩
  cases trigger <;> cases servePos <;>
    exact ⟨_, rfl, by simp, by simp⟩

/-- C6: whenever errors are recorded, the returned composite is exactly the
left-nested `errors.Join` of all recorded errors in record order — the
first recorded error is the primary (leftmost) cause, every later one is
joined into it, none is dropped, and `errors.Is` against each individually
recorded error succeeds against the composite. -/
theorem merge_policy (s : RunScenario) (e₀ : GoError) (rest : List GoError)
    (e : GoError) (h : recordedErrs s = e₀ :: rest) (he : e ∈ recordedErrs s) :
    runServer s = some (rest.foldl .joined e₀) ∧
    resultPrimary (runServer s) = some e₀.primary ∧
    resultIs (runServer s) e = true := by
  refine ⟨?_, ?_, resultIs_of_mem s e he⟩
  · rw [runServer_eq_joinAll, h]
    rfl
  · rw [runServer_eq_joinAll, h]
    simp

/-- C6, witness: the theorem at the run of the `both start and stop func
return error on shutdown` test — cancellation is recorded first, then the
serve error, then the stop error; all three remain discoverable. -/
theorem merge_policy_witness :
    runServer ⟨some ⟨false, .canceled⟩, some (.errorString "error from start"),
        some (.errorString "error from stop"), .ctxDone, .beforeStop⟩
      = some (.joined
          (.joined .canceled
            (.wrapped "http server exited with error" (.errorString "error from start")))
          (.wrapped "stopping http server" (.errorString "error from stop"))) ∧
    resultPrimary
      (runServer ⟨some ⟨false, .canceled⟩, some (.errorString "error from start"),
          some (.errorString "error from stop"), .ctxDone, .beforeStop⟩)
      = some GoError.canceled ∧
    resultIs
      (runServer ⟨some ⟨false, .canceled⟩, some (.errorString "error from start"),
          some (.errorString "error from stop"), .ctxDone, .beforeStop⟩)
      (.wrapped "stopping http server" (.errorString "error from stop")) = true :=
  merge_policy _ .canceled
    [.wrapped "http server exited with error" (.errorString "error from start"),
     .wrapped "stopping http server" (.errorString "error from stop")]
    (.wrapped "stopping http server" (.errorString "error from stop"))
    (by decide) (by decide)

/-- C7, counterexample: a scope cancelled through `context.WithCancelCause`
with the specific cause `custom cause` still gets `context.Canceled`
recorded as the triggering error — `runServer` records `ctx.Err()`, not the
cancellation cause, so the composite's primary is not that cause and even
`errors.Is` against it fails. -/
theorem cancellation_cause_counterexample :
    resultPrimary
      (runServer ⟨some ⟨false, .errorString "custom cause"⟩, some .errServerClosed,
          none, .ctxDone, .beforeStop⟩) = some .canceled ∧
    resultIs
      (runServer ⟨some ⟨false, .errorString "custom cause"⟩, some .errServerClosed,
          none, .ctxDone, .beforeStop⟩) (.errorString "custom cause") = false ∧
    GoError.canceled ≠ .errorString "custom cause" := by
  decide

/-- C7 (amended): when the cancellation arm wins before the serve goroutine
records anything, the triggering (first-recorded, primary) error is the
context's `Err()` value — `context.Canceled` or `context.DeadlineExceeded` —
which equals the scope's cancellation cause exactly when no distinct cause
was set. -/
theorem cancellationFirst_records_ctxErr (s : RunScenario) (cs : CancelState)
    (hc : s.cancel = some cs) (ht : s.trigger = .ctxDone)
    (hp : s.servePos ≠ .beforeTrigger) :
    firstRecorded s = some cs.ctxErr ∧
    resultPrimary (runServer s) = some cs.ctxErr ∧
    (cs.cause = cs.ctxErr → resultPrimary (runServer s) = some cs.cause) := by
  obtain ⟨rest, hre⟩ := recordedErrs_ctxDone_head s cs hc ht hp
  have hp2 : resultPrimary (runServer s) = some cs.ctxErr := by
    rw [runServer_eq_joinAll, hre]
    simp
  refine ⟨?_, hp2, fun hq => by rw [hq]; exact hp2⟩
  rw [firstRecorded, hre]
  rfl

/-- C7, witness: the amended theorem at a plainly-cancelled scope (no
distinct cause, so the cause equals `context.Canceled`). -/
theorem cancellationFirst_records_ctxErr_witness :
    firstRecorded ⟨some ⟨false, .canceled⟩, some .errServerClosed, none,
        .ctxDone, .afterStop⟩ = some GoError.canceled ∧
    resultPrimary
      (runServer ⟨some ⟨false, .canceled⟩, some .errServerClosed, none,
          .ctxDone, .afterStop⟩) = some GoError.canceled ∧
    ((CancelState.mk false .canceled).cause = (CancelState.mk false .canceled).ctxErr →
      resultPrimary
        (runServer ⟨some ⟨false, .canceled⟩, some .errServerClosed, none,
            .ctxDone, .afterStop⟩) = some (CancelState.mk false .canceled).cause) :=
  cancellationFirst_records_ctxErr _ ⟨false, .canceled⟩ rfl rfl (by decide)

/-- C8: an invalid configuration — no handler from either the server's
Handler field or the Endpoints parameter, or no address from either the
Addr field or the Listener parameter — makes `Run` return the corresponding
configuration error immediately: the trace is just the return, the serve
goroutine is never launched and the stop function is never invoked. -/
theorem invalid_config_short_circuits (cfg : serverConf) (s : RunScenario) :
    (cfg.srv.hasHandler = false →
      Run cfg s = some errUnassignedHandler ∧ RunTrace cfg s = [Event.ret] ∧
      Event.serveStart ∉ RunTrace cfg s ∧ Event.stopCall ∉ RunTrace cfg s) ∧
    (cfg.srv.hasHandler = true → cfg.srv.addr = "" → cfg.hasListener = false →
      Run cfg s = some errUnassignedAddr ∧ RunTrace cfg s = [Event.ret] ∧
      Event.serveStart ∉ RunTrace cfg s ∧ Event.stopCall ∉ RunTrace cfg s) := by
  constructor
  · intro h
    have hv : cfg.validate = some errUnassignedHandler := by
      simp [serverConf.validate, h]
    simp [Run, RunTrace, hv]
  · intro h1 h2 h3
    have hv : cfg.validate = some errUnassignedAddr := by
      simp [serverConf.validate, h1, h2, h3]
    simp [Run, RunTrace, hv]

/-- C8, witness: the theorem at the two configurations of the
`handlers to serve is not assigned` and `address to listen to is not
assigned` tests. -/
theorem invalid_config_short_circuits_witness :
    Run ⟨⟨"127.0.0.1:0", false⟩, false, 0, false⟩
        ⟨none, none, none, .serveQuitClosed, .beforeTrigger⟩
      = some errUnassignedHandler ∧
    Event.serveStart ∉ RunTrace ⟨⟨"127.0.0.1:0", false⟩, false, 0, false⟩
        ⟨none, none, none, .serveQuitClosed, .beforeTrigger⟩ ∧
    Run ⟨⟨"", true⟩, false, 0, false⟩
        ⟨none, none, none, .serveQuitClosed, .beforeTrigger⟩
      = some errUnassignedAddr :=
  ⟨((invalid_config_short_circuits _ _).1 rfl).1,
   ((invalid_config_short_circuits _ _).1 rfl).2.2.1,
   ((invalid_config_short_circuits _ _).2 rfl rfl rfl).1⟩

/-- C9: the stop function's strategy is selected from the configured
shutdown timeout alone — `srv.Close()` when the timeout is zero or
negative, otherwise `srv.Shutdown` under a fresh deadline of the configured
duration that starts at the invocation instant and is derived from
`context.Background()`, not from the caller's scope. -/
theorem stopFunc_strategy (cfg : serverConf) (now : Int) :
    cfg.stopFunc now =
      if cfg.shutdownTO ≤ 0 then .closeCall
      else .shutdownCall .background (now + cfg.shutdownTO) := by
  unfold serverConf.stopFunc
  by_cases h : cfg.shutdownTO ≤ 0 <;> simp [h]

/-- C10: the wrapper installed by `ShutdownOnPanic` is inert on a normal
return and on a panic whose value is exactly the unwrapped
`http.ErrAbortHandler` sentinel; a panic with any other value `p` sends
`unhandled panic: p` into the escalation channel and then closes the
server. -/
theorem panic_wrapper_behaviour (v : PanicValue) :
    dieOnPanicHandler .normal = [] ∧
    dieOnPanicHandler (.panicked (.errValue .errAbortHandler)) = [] ∧
    (v ≠ .errValue .errAbortHandler →
      dieOnPanicHandler (.panicked v) =
        [.sendShutdown (.errorString ("unhandled panic: " ++ panicString v)),
         .closeServer]) :=
  ⟨rfl, by simp [dieOnPanicHandler], fun h => by simp [dieOnPanicHandler, h]⟩

/-- C10, witness: the theorem at the panic value of the `random panic stops
the server` test, and at a *wrapped* `http.ErrAbortHandler` — which, not
being identical to the sentinel, escalates too. -/
theorem panic_wrapper_behaviour_witness :
    dieOnPanicHandler (.panicked (.otherValue "foobar"))
      = [.sendShutdown (.errorString "unhandled panic: foobar"), .closeServer] ∧
    dieOnPanicHandler (.panicked (.errValue (.wrapped "request aborted" .errAbortHandler)))
      = [.sendShutdown (.errorString
            ("unhandled panic: " ++ ("request aborted" ++ ": " ++ "net/http: abort Handler"))),
         .closeServer] :=
  ⟨(panic_wrapper_behaviour _).2.2 (by decide),
   (panic_wrapper_behaviour _).2.2 (by decide)⟩

end Httpsrv
